import Mathlib

/-!
Shallow embedding of the BaatCheet authentication core
(`backend/controllers/auth-controller.js`, `backend/models/Users.js`,
the Express error middleware of `app.js`, and the Redis key schema).

State is passed explicitly: the durable account store is a list of
accounts, the ephemeral store is an association list of keyed entries
with a TTL, and the BullMQ email queue is a list of enqueued jobs.
External collaborators (bcrypt, sha256, jsonwebtoken) are modelled by
constructive stand-ins that satisfy their interface contracts: hashing
is injective and never returns its input, token verification checks the
signing secret and the expiry flag.

The repository's own `ApiError` class is embedded as it actually
behaves: its constructor's first statement `success(message)` calls the
boolean `success` parameter, so every `new ApiError(...)` throws a
status-less `TypeError` (see `apiError`), and the error middleware
renders all domain-error paths as generic 500 `INTERNAL_ERROR`
responses; `specApiError` records the status-carrying error the spec
describes, for comparison.
-/

namespace BaatCheet

/-- Signing secret for access tokens (environment `ACCESS_TOKEN_SECRET`). -/
def ACCESS_TOKEN_SECRET : String := "access-token-secret"

/-- Signing secret for refresh tokens (environment `REFRESH_TOKEN_SECRET`);
distinct from the access-token secret. -/
def REFRESH_TOKEN_SECRET : String := "refresh-token-secret"

/-- A signed JSON web token: its claims (`_id`, `email` when present), the
secret it was signed with, and whether it is expired at the time the
request under consideration is handled. -/
structure Jwt where
  idOpt : Option Nat
  emailOpt : Option String
  secret : String
  expired : Bool
deriving DecidableEq, Repr

/-- A thrown JavaScript error as seen by the Express error middleware:
its `name`, `message`, and the optional `status` / `code` fields that the
middleware reads (`err.status || 500`, `err.code || "INTERNAL_ERROR"`). -/
structure JsError where
  name : String
  message : String
  statusOpt : Option Nat
  codeOpt : Option String
deriving DecidableEq, Repr

/-- `throw new ApiError(status, message)` (`utils/api-error.js`): what the
`new ApiError(...)` expression actually throws. The constructor's first
statement is `success(message)`, a call of its own `success` parameter,
which defaults to the boolean `false`; that call raises
`TypeError: success is not a function` before `super()` or any field
assignment runs. The intended `status` and `message` arguments (kept
here to mirror the throw sites) never reach the thrown error: every
domain-error path throws this same status-less, code-less `TypeError`. -/
def apiError (_status : Nat) (_message : String) : JsError :=
  { name := "TypeError", message := "success is not a function",
    statusOpt := none, codeOpt := none }

/-- Modelled from the spec, for comparison with `apiError`: the
status-carrying domain error that the spec's taxonomy — and the repo's
own documentation of `ApiError(status, message)` — describes the domain
failures as. The real constructor never builds it. -/
def specApiError (status : Nat) (message : String) : JsError :=
  { name := "ApiError", message := message, statusOpt := some status, codeOpt := none }

/-- What `new ApiError(...)` actually throws never coincides with the
spec's status-carrying domain error: the constructor crashes first. -/
theorem apiError_ne_spec (s1 : Nat) (m1 : String) (s2 : Nat) (m2 : String) :
    apiError s1 m1 ≠ specApiError s2 m2 := fun h => by
  have h2 : "TypeError" = "ApiError" := congrArg JsError.name h
  exact absurd h2 (by decide)

/-- The error `jwt.verify` throws on a bad signature (`jsonwebtoken`
library); it carries neither a `status` nor a `code` field. -/
def jsonWebTokenError : JsError :=
  { name := "JsonWebTokenError", message := "invalid signature",
    statusOpt := none, codeOpt := none }

/-- The error `jwt.verify` throws on an expired token (`jsonwebtoken`
library); it carries neither a `status` nor a `code` field. -/
def tokenExpiredError : JsError :=
  { name := "TokenExpiredError", message := "jwt expired",
    statusOpt := none, codeOpt := none }

/-- Result of `jwt.verify(token, secret)`: the decoded payload, or the
thrown library error. -/
inductive VerifyResult where
  | ok (payload : Jwt)
  | err (e : JsError)
deriving DecidableEq, Repr

/-- `jwt.verify`: succeeds and returns the payload exactly when the token
was signed with `secret` and is not expired; otherwise it throws. -/
def jwtVerify (t : Jwt) (secret : String) : VerifyResult :=
  if t.secret = secret then
    if t.expired then .err tokenExpiredError else .ok t
  else .err jsonWebTokenError

/-- Model of `bcrypt.hash(password, 10)`: a one-way hash, injective and
never equal to its input (the stand-in prepends a fixed tag). -/
def bcryptHash (password : String) : String := "bcrypt$" ++ password

/-- Model of `bcrypt.compare(password, hash)`: true exactly when `hash`
is the hash of `password`. -/
def bcryptCompare (password hash : String) : Bool := bcryptHash password == hash

/-- A durable `User` document (`models/Users.js` schema): the fields of
the mongoose schema that the auth core reads or writes. -/
structure Account where
  id : Nat
  username : String
  email : String
  password : String
  avatar : String
  bio : String
  isVerified : Bool
  lastSeen : Nat
  status : String
  friends : List Nat
deriving DecidableEq, Repr

/-- Schema default for `avatar` (`models/Users.js`). -/
def defaultAvatar : String := "https://www.freepik.com/free-vector/user-blue-gradient_145856969.htm"

/-- `userSchema.methods.createAccessToken`: signs `\x7b _id, email \x7d`
with the access-token secret. -/
def Account.createAccessToken (u : Account) : Jwt :=
  { idOpt := some u.id, emailOpt := some u.email,
    secret := ACCESS_TOKEN_SECRET, expired := false }

/-- `userSchema.methods.createRefreshToken`: signs `\x7b _id \x7d` with the
refresh-token secret. -/
def Account.createRefreshToken (u : Account) : Jwt :=
  { idOpt := some u.id, emailOpt := none,
    secret := REFRESH_TOKEN_SECRET, expired := false }

/-- `userSchema.methods.validatePassword`: `bcrypt.compare(password, this.password)`. -/
def Account.validatePassword (u : Account) (password : String) : Bool :=
  bcryptCompare password u.password

/-- A value stored in the ephemeral store: the rate-limit marker `"true"`,
a JSON staged-registration payload, a JSON reset ticket, or the sha256
hash of a refresh token (`hashRefreshToken`; hash equality coincides with
token equality, the collision-freeness idealization of sha256). -/
inductive RVal where
  | marker
  | reg (username email password otp : String)
  | reset (otp : String)
  | rhash (token : Jwt)
deriving DecidableEq, Repr

/-- One ephemeral-store entry: key, value, and the TTL in seconds passed
with `"EX"`. -/
structure REntry where
  key : String
  val : RVal
  ttl : Nat
deriving DecidableEq, Repr

/-- `redisClient.get(k)`: the value of the first (most recent) entry for `k`. -/
def redisGet (rs : List REntry) (k : String) : Option RVal :=
  (rs.find? (fun e => e.key == k)).map (fun e => e.val)

/-- `redisClient.set(k, v, "EX", ttl)`: overwrite any prior entry for `k`. -/
def redisSet (rs : List REntry) (k : String) (v : RVal) (ttl : Nat) : List REntry :=
  { key := k, val := v, ttl := ttl } :: rs.filter (fun e => e.key != k)

/-- `redisClient.del(k)`: remove the entry for `k`. -/
def redisDel (rs : List REntry) (k : String) : List REntry :=
  rs.filter (fun e => e.key != k)

/-- A job added to the BullMQ email queue (`emailQueue.add(name, data)`). -/
structure EmailJob where
  jobName : String
  email : String
  subject : String
  otp : String
deriving DecidableEq, Repr

/-- The state a request handler reads and writes: the durable user
collection, the ephemeral store, the email queue, and the next
store-assigned account id. -/
structure St where
  users : List Account
  redis : List REntry
  emailJobs : List EmailJob
  nextId : Nat
deriving DecidableEq, Repr

/-- How a controller call resolves: the HTTP status of the JSON response
on success, or the thrown error that `asyncHandler` forwards to the
error middleware on failure. -/
inductive CResult where
  | ok (status : Nat)
  | err (e : JsError)
deriving DecidableEq, Repr

/-- What a controller call produces: its resolution, the updated state,
and the cookie effects of the response. -/
structure Outcome where
  result : CResult
  st : St
  accessCookie : Option Jwt := none
  refreshCookie : Option Jwt := none
  clearedAccessCookie : Bool := false
  clearedRefreshCookie : Bool := false
deriving DecidableEq, Repr

/-- `throw new ApiError(status, message)` from a controller, with the
state left as it stands at the throw. -/
def errOutcome (st : St) (status : Nat) (message : String) : Outcome :=
  { result := .err (apiError status message), st := st }

/-- The Express error middleware response (`app.js`, after routes):
`\x7b status: err.status || 500, code: err.code || "INTERNAL_ERROR", message \x7d`. -/
structure ErrorResponse where
  status : Nat
  message : String
  code : String
deriving DecidableEq, Repr

/-- The Express error middleware (`app.js`): defaults the status to 500
and the code to `INTERNAL_ERROR` when the thrown error has none. -/
def errorMiddleware (e : JsError) : ErrorResponse :=
  { status := e.statusOpt.getD 500, message := e.message,
    code := e.codeOpt.getD "INTERNAL_ERROR" }

/-- `registerUser` (auth-controller.js): stage a registration. `loggedIn`
is whether `req.user` is set; `otp` is the value drawn by `generateOTP()`. -/
def registerUser (st : St) (loggedIn : Bool) (username email password otp : String) :
    Outcome :=
  if loggedIn then errOutcome st 401 "Cannot create user while being logged in"
  else if (st.users.find? (fun u => u.username == username || u.email == email)).isSome then
    errOutcome st 409 "User with email or username already exists"
  else if (redisGet st.redis ("register:ratelimit:" ++ email)).isSome then
    errOutcome st 429 "Too many OTP requests. Please try again later."
  else
    { result := .ok 200,
      st := { st with
        redis := redisSet
          (redisSet st.redis ("register:" ++ email) (.reg username email password otp) 300)
          ("register:ratelimit:" ++ email) .marker 60,
        emailJobs := st.emailJobs ++
          [{ jobName := "sendMail", email := email, subject := "OTP Verification", otp := otp }] } }

/-- `verifyOtp` (auth-controller.js): verify a staged registration and
create the durable account. `now` is the creation timestamp the schema
default `Date.now` supplies for `lastSeen`. -/
def verifyOtp (st : St) (now : Nat) (email otp : String) : Outcome :=
  if email == "" || otp == "" then errOutcome st 404 "Email or OTP missing"
  else
    match redisGet st.redis ("register:" ++ email) with
    | none => errOutcome st 400 "OTP expired or invalid"
    | some (.reg su se sp sotp) =>
      if sotp != otp then errOutcome st 400 "Invalid OTP"
      else if (st.users.find? (fun u => u.email == email)).isSome then
        { result := .err (apiError 400 "User already exists"),
          st := { st with redis := redisDel st.redis ("register:" ++ email) } }
      else
        let newUser : Account :=
          { id := st.nextId, username := su, email := se, password := bcryptHash sp,
            avatar := defaultAvatar, bio := "", isVerified := true, lastSeen := now,
            status := "online", friends := [] }
        let rt := newUser.createRefreshToken
        { result := .ok 201,
          st := { users := st.users ++ [newUser],
                  redis := redisDel
                    (redisDel
                      (redisSet st.redis ("refresh:" ++ toString newUser.id)
                        (.rhash rt) (7 * 24 * 60 * 60))
                      ("register:" ++ email))
                    ("register:ratelimit:" ++ email),
                  emailJobs := st.emailJobs,
                  nextId := st.nextId + 1 },
          accessCookie := some newUser.createAccessToken,
          refreshCookie := some rt }
    | some _ => errOutcome st 400 "Invalid OTP"

/-- `resendEmailVerificationOTP` (auth-controller.js): re-stage the
registration payload with a fresh OTP after only a rate-limit check. -/
def resendEmailVerificationOTP (st : St) (email username password otp : String) : Outcome :=
  if (redisGet st.redis ("register:ratelimit:" ++ email)).isSome then
    errOutcome st 429 "Too many OTP requests. Please try again later."
  else
    { result := .ok 200,
      st := { st with
        redis := redisSet
          (redisSet st.redis ("register:" ++ email) (.reg username email password otp) 300)
          ("register:ratelimit:" ++ email) .marker 60,
        emailJobs := st.emailJobs ++
          [{ jobName := "sendMail", email := email, subject := "OTP Verification", otp := otp }] } }

/-- `loginUser` (auth-controller.js): password login; on success issues
both tokens and stores the hashed refresh token, touching no user document. -/
def loginUser (st : St) (email password : String) : Outcome :=
  match st.users.find? (fun u => u.email == email) with
  | none => errOutcome st 404 "User not found"
  | some user =>
    if !user.isVerified then errOutcome st 400 "Account not verified"
    else if !(user.validatePassword password) then errOutcome st 400 "Incorrect password"
    else
      let rt := user.createRefreshToken
      { result := .ok 200,
        st := { st with
          redis := redisSet st.redis ("refresh:" ++ toString user.id)
            (.rhash rt) (7 * 24 * 60 * 60) },
        accessCookie := some user.createAccessToken,
        refreshCookie := some rt }

/-- `User.findByIdAndUpdate` / `User.findOneAndUpdate`: update the first
matching document, if any. -/
def updateFirstUser (users : List Account) (p : Account → Bool) (f : Account → Account) :
    List Account :=
  match users with
  | [] => []
  | u :: rest => if p u then f u :: rest else u :: updateFirstUser rest p f

/-- `logoutUser` (auth-controller.js): mark the account offline, record
`lastSeen := now`, delete the refresh record, clear both cookies. -/
def logoutUser (st : St) (now : Nat) (id : Nat) : Outcome :=
  { result := .ok 200,
    st := { st with
      users := updateFirstUser st.users (fun u => u.id == id)
        (fun u => { u with status := "offline", lastSeen := now }),
      redis := redisDel st.redis ("refresh:" ++ toString id) },
    clearedAccessCookie := true,
    clearedRefreshCookie := true }

/-- `refreshToken` (auth-controller.js): exchange the refresh-token cookie
for a new access token. The `jwt.verify` call is not wrapped in a
try/catch, so its thrown error propagates through `asyncHandler` as is. -/
def refreshToken (st : St) (cookie : Option Jwt) : Outcome :=
  match cookie with
  | none => errOutcome st 401 "No Refresh Token Found"
  | some tok =>
    match jwtVerify tok REFRESH_TOKEN_SECRET with
    | .err e => { result := .err e, st := st }
    | .ok decoded =>
      match decoded.idOpt with
      | none => errOutcome st 401 "Invalid refresh token payload"
      | some userId =>
        match redisGet st.redis ("refresh:" ++ toString userId) with
        | none => errOutcome st 403 "Session expired, please log in again"
        | some stored =>
          if stored != RVal.rhash tok then
            errOutcome st 403 "Invalid refresh token, possible token reuse attack"
          else
            match st.users.find? (fun u => u.id == userId) with
            | none => errOutcome st 404 "User not found"
            | some user =>
              { result := .ok 200, st := st,
                accessCookie := some user.createAccessToken }

/-- `forgotPassword` (auth-controller.js): stage a password-reset ticket
for an existing account; `otp` is the value drawn by `generateOTP()`. -/
def forgotPassword (st : St) (email otp : String) : Outcome :=
  match st.users.find? (fun u => u.email == email) with
  | none => errOutcome st 404 "User not found"
  | some _ =>
    if (redisGet st.redis ("reset:rateLimit:" ++ email)).isSome then
      errOutcome st 429 "Too many OTP requests. Try again later"
    else
      { result := .ok 200,
        st := { st with
          redis := redisSet
            (redisSet st.redis ("reset:" ++ email) (.reset otp) 300)
            ("reset:rateLimit:" ++ email) .marker 60,
          emailJobs := st.emailJobs ++
            [{ jobName := "sendResetPasswordMail", email := email,
               subject := "Reset Password OTP", otp := otp }] } }

/-- `verifyForgotPasswordOtp` (auth-controller.js): on a matching OTP,
rewrite the account password hash and delete the reset keys; no tokens
or cookies are produced. -/
def verifyForgotPasswordOtp (st : St) (email password otp : String) : Outcome :=
  if email == "" || password == "" || otp == "" then
    errOutcome st 400 "Email, OTP and Password are required"
  else
    match redisGet st.redis ("reset:" ++ email) with
    | none => errOutcome st 400 "OTP expired or invalid"
    | some (.reset savedOtp) =>
      if savedOtp != otp then errOutcome st 400 "Invalid OTP"
      else
        { result := .ok 200,
          st := { st with
            users := updateFirstUser st.users (fun u => u.email == email)
              (fun u => { u with password := bcryptHash password }),
            redis := redisDel (redisDel st.redis ("reset:" ++ email))
              ("reset:rateLimit:" ++ email) } }
    | some _ => errOutcome st 400 "Invalid OTP"

/-! Helper lemmas about the ephemeral store and the hash models. -/

theorem find?_filter_imp {α : Type} (l : List α) (p q : α → Bool)
    (h : ∀ e, p e = true → q e = true) :
    (l.filter q).find? p = l.find? p := by
  induction l with
  | nil => rfl
  | cons a l ih =>
    cases hq : q a with
    | true =>
      rw [List.filter_cons_of_pos hq]
      cases hp : p a with
      | true => rw [List.find?_cons_of_pos _ hp, List.find?_cons_of_pos _ hp]
      | false => rw [List.find?_cons_of_neg _ (by simp [hp]), List.find?_cons_of_neg _ (by simp [hp]), ih]
    | false =>
      have hp : p a = false := by
        cases hpa : p a with
        | true => exact absurd (h a hpa) (by simp [hq])
        | false => rfl
      rw [List.filter_cons_of_neg (by simp [hq]), List.find?_cons_of_neg _ (by simp [hp]), ih]

theorem redisGet_set_self (rs : List REntry) (k : String) (v : RVal) (ttl : Nat) :
    redisGet (redisSet rs k v ttl) k = some v := by
  simp [redisGet, redisSet, List.find?_cons_of_pos]

theorem redisGet_set_ne (rs : List REntry) (k k' : String) (v : RVal) (ttl : Nat)
    (h : k' ≠ k) :
    redisGet (redisSet rs k v ttl) k' = redisGet rs k' := by
  unfold redisGet redisSet
  rw [List.find?_cons_of_neg _ (by simp [beq_iff_eq]; exact fun hh => h hh.symm)]
  rw [find?_filter_imp]
  intro e he
  simp only [beq_iff_eq] at he
  simp [bne_iff_ne, he, h]

theorem redisGet_del_self (rs : List REntry) (k : String) :
    redisGet (redisDel rs k) k = none := by
  unfold redisGet redisDel
  rw [List.find?_eq_none.mpr]
  · rfl
  · intro a ha
    simp only [List.mem_filter, bne_iff_ne] at ha
    simp [beq_iff_eq, ha.2]

theorem redisGet_del_ne (rs : List REntry) (k k' : String) (h : k' ≠ k) :
    redisGet (redisDel rs k) k' = redisGet rs k' := by
  unfold redisGet redisDel
  rw [find?_filter_imp]
  intro e he
  simp only [beq_iff_eq] at he
  simp [bne_iff_ne, he, h]

theorem append_ne_append_of_length_ne (p q s : String) (h : p.length ≠ q.length) :
    p ++ s ≠ q ++ s := by
  intro heq
  apply h
  have h2 := congrArg String.length heq
  rw [String.length_append, String.length_append] at h2
  omega

theorem bcryptHash_inj {a b : String} (h : bcryptHash a = bcryptHash b) : a = b := by
  unfold bcryptHash at h
  have h2 : ("bcrypt$" ++ a).data = ("bcrypt$" ++ b).data := congrArg String.data h
  rw [String.data_append, String.data_append] at h2
  exact String.ext (List.append_cancel_left h2)

theorem bcryptHash_ne_self (p : String) : bcryptHash p ≠ p := by
  intro h
  have h2 := congrArg String.length h
  rw [bcryptHash, String.length_append] at h2
  have h7 : ("bcrypt$" : String).length = 7 := rfl
  omega

theorem bcryptCompare_hash_iff (q p : String) :
    bcryptCompare q (bcryptHash p) = true ↔ q = p := by
  unfold bcryptCompare
  rw [beq_iff_eq]
  exact ⟨fun h => bcryptHash_inj h, fun h => by rw [h]⟩

/-! Concrete fixture states used to instantiate the theorems. -/

/-- A fresh deployment: no accounts, empty ephemeral store, empty queue. -/
def emptySt : St :=
  { users := [], redis := [], emailJobs := [], nextId := 0 }

/-- A verified account on record. -/
def aliceAcct : Account :=
  { id := 0, username := "alice", email := "a@x.com", password := bcryptHash "Abc123!",
    avatar := defaultAvatar, bio := "", isVerified := true, lastSeen := 5,
    status := "offline", friends := [] }

/-- State holding only `aliceAcct`, with an empty ephemeral store. -/
def aliceSt : St :=
  { users := [aliceAcct], redis := [], emailJobs := [], nextId := 1 }

/-- The refresh token the session issuer creates for `aliceAcct`. -/
def aliceRefreshTok : Jwt := aliceAcct.createRefreshToken

/-- State with `aliceAcct` logged in: her hashed refresh token is stored
at `refresh:0`. -/
def sessionSt : St :=
  { users := [aliceAcct],
    redis := [{ key := "refresh:0", val := .rhash aliceRefreshTok, ttl := 604800 }],
    emailJobs := [], nextId := 1 }

/-- A token signed with the wrong secret (invalid signature). -/
def badSigTok : Jwt :=
  { idOpt := some 0, emailOpt := none, secret := "wrong-secret", expired := false }

/-- A correctly signed refresh token that has expired. -/
def expiredTok : Jwt :=
  { idOpt := some 0, emailOpt := none, secret := REFRESH_TOKEN_SECRET, expired := true }

/-! Claim C1. -/

/-- C1 counterexample: a refresh request carrying a refresh-token cookie
with an invalid signature (and likewise an expired one) does fail, but
the thrown error is the uncaught `jwt.verify` library error, which has no
`status` field, so the error middleware renders it as the generic
500 `INTERNAL_ERROR` response, not as the 401 `Unauthorized` of the
domain taxonomy as the claim states. -/
theorem c1_refresh_invalid_sig_counterexample :
    (refreshToken emptySt (some badSigTok)).result = .err jsonWebTokenError ∧
    (refreshToken emptySt (some expiredTok)).result = .err tokenExpiredError ∧
    jsonWebTokenError.statusOpt = none ∧
    tokenExpiredError.statusOpt = none ∧
    (errorMiddleware jsonWebTokenError).status = 500 ∧
    (errorMiddleware jsonWebTokenError).code = "INTERNAL_ERROR" ∧
    (errorMiddleware tokenExpiredError).status = 500 ∧
    ¬((errorMiddleware jsonWebTokenError).status = 401) ∧
    ¬((errorMiddleware tokenExpiredError).status = 401) := by
  refine ⟨rfl, rfl, rfl, rfl, rfl, rfl, rfl, ?_, ?_⟩ <;> decide

/-- C1, amended: for every refresh request whose refresh-token cookie has
an invalid signature or is expired, the operation fails and issues no new
access token and changes no state, but the failure is the uncaught token
verification error, which carries no status and therefore surfaces
through the error middleware as a generic internal error
(500, `INTERNAL_ERROR`) rather than as the taxonomy's 401 `Unauthorized`
`ApiError`. -/
theorem c1_refresh_invalid_or_expired_internal_error
    (st : St) (tok : Jwt)
    (h : tok.secret ≠ REFRESH_TOKEN_SECRET ∨ tok.expired = true) :
    ∃ e : JsError,
      (refreshToken st (some tok)).result = .err e ∧
      (refreshToken st (some tok)).accessCookie = none ∧
      (refreshToken st (some tok)).st = st ∧
      e.statusOpt = none ∧
      (errorMiddleware e).status = 500 ∧
      (errorMiddleware e).code = "INTERNAL_ERROR" ∧
      (∀ s m, e ≠ apiError s m) := by
  have hj : ∀ s m, jsonWebTokenError ≠ apiError s m := by
    intro s m heq
    have h2 : "JsonWebTokenError" = "TypeError" := congrArg JsError.name heq
    exact absurd h2 (by decide)
  have ht : ∀ s m, tokenExpiredError ≠ apiError s m := by
    intro s m heq
    have h2 : "TokenExpiredError" = "TypeError" := congrArg JsError.name heq
    exact absurd h2 (by decide)
  by_cases hs : tok.secret = REFRESH_TOKEN_SECRET
  · rcases h with h | h
    · exact absurd hs h
    · refine ⟨tokenExpiredError, ?_, ?_, ?_, rfl, rfl, rfl, ht⟩ <;>
        simp [refreshToken, jwtVerify, hs, h]
  · refine ⟨jsonWebTokenError, ?_, ?_, ?_, rfl, rfl, rfl, hj⟩ <;>
      simp [refreshToken, jwtVerify, hs]

/-- C1 witness: the amended theorem applied to the invalid-signature
token at the fresh state. -/
theorem c1_refresh_invalid_or_expired_internal_error_witness :
    ∃ e : JsError,
      (refreshToken emptySt (some badSigTok)).result = .err e ∧
      (refreshToken emptySt (some badSigTok)).accessCookie = none ∧
      (refreshToken emptySt (some badSigTok)).st = emptySt ∧
      e.statusOpt = none ∧
      (errorMiddleware e).status = 500 ∧
      (errorMiddleware e).code = "INTERNAL_ERROR" ∧
      (∀ s m, e ≠ apiError s m) :=
  c1_refresh_invalid_or_expired_internal_error emptySt badSigTok (Or.inl (by decide))

/-! Claim C2. -/

/-- C2 counterexample: a validly signed refresh token for account 0
against the fresh state (no `refresh:0` record). The operation does not
fail with the taxonomy's status-carrying `SessionExpired` error: what is
thrown on that path is the status-less `TypeError` from the broken
`ApiError` constructor, which the middleware renders as 500
`INTERNAL_ERROR`, not 403. -/
theorem c2_refresh_no_session_record_counterexample :
    (refreshToken emptySt (some aliceRefreshTok)).result ≠
      .err (specApiError 403 "Session expired, please log in again") ∧
    (refreshToken emptySt (some aliceRefreshTok)).result =
      .err (apiError 403 "Session expired, please log in again") ∧
    (apiError 403 "Session expired, please log in again").statusOpt = none ∧
    (errorMiddleware (apiError 403 "Session expired, please log in again")).status = 500 ∧
    (errorMiddleware (apiError 403 "Session expired, please log in again")).code =
      "INTERNAL_ERROR" := by
  refine ⟨?_, rfl, rfl, rfl, rfl⟩
  decide

/-- C2, amended: for every refresh request presenting a validly signed,
unexpired refresh token whose account has no stored hash at
`refresh:<accountId>` (for example after logout deleted it), the
operation fails on the session-expired path — issuing no new access
token and changing no state — but the failure actually thrown is the
status-less `TypeError` raised by the broken `ApiError` constructor at
`new ApiError(403, "Session expired, please log in again")`, which the
error middleware surfaces as a generic 500 `INTERNAL_ERROR`, not as any
status-carrying error of the domain taxonomy. -/
theorem c2_refresh_no_session_record_generic_500
    (st : St) (tok : Jwt) (uid : Nat)
    (hsig : tok.secret = REFRESH_TOKEN_SECRET)
    (hexp : tok.expired = false)
    (hid : tok.idOpt = some uid)
    (hmiss : redisGet st.redis ("refresh:" ++ toString uid) = none) :
    (refreshToken st (some tok)).result =
      .err (apiError 403 "Session expired, please log in again") ∧
    (∀ s m, (refreshToken st (some tok)).result ≠ .err (specApiError s m)) ∧
    (errorMiddleware (apiError 403 "Session expired, please log in again")).status = 500 ∧
    (errorMiddleware (apiError 403 "Session expired, please log in again")).code =
      "INTERNAL_ERROR" ∧
    (refreshToken st (some tok)).accessCookie = none ∧
    (refreshToken st (some tok)).st = st := by
  have hres : (refreshToken st (some tok)).result =
      .err (apiError 403 "Session expired, please log in again") := by
    simp [refreshToken, jwtVerify, hsig, hexp, hid, hmiss, errOutcome]
  refine ⟨hres, ?_, rfl, rfl, ?_, ?_⟩
  · intro s m heq
    rw [hres] at heq
    injection heq with h2
    exact apiError_ne_spec _ _ _ _ h2
  · simp [refreshToken, jwtVerify, hsig, hexp, hid, hmiss, errOutcome]
  · simp [refreshToken, jwtVerify, hsig, hexp, hid, hmiss, errOutcome]

/-- C2 witness: a valid refresh token for account 0 presented against the
fresh state, where no `refresh:0` record exists. -/
theorem c2_refresh_no_session_record_generic_500_witness :
    (refreshToken emptySt (some aliceRefreshTok)).result =
      .err (apiError 403 "Session expired, please log in again") ∧
    (∀ s m, (refreshToken emptySt (some aliceRefreshTok)).result ≠
      .err (specApiError s m)) ∧
    (errorMiddleware (apiError 403 "Session expired, please log in again")).status = 500 ∧
    (errorMiddleware (apiError 403 "Session expired, please log in again")).code =
      "INTERNAL_ERROR" ∧
    (refreshToken emptySt (some aliceRefreshTok)).accessCookie = none ∧
    (refreshToken emptySt (some aliceRefreshTok)).st = emptySt :=
  c2_refresh_no_session_record_generic_500 emptySt aliceRefreshTok 0 rfl rfl rfl rfl

/-! Claim C3. -/

/-- C3: for every successful refresh (valid signature, not expired, the
stored hash at `refresh:<accountId>` present and matching the presented
token, account on record), the operation returns 200 and issues a new
access-token cookie only: the whole state — in particular the stored
value at `refresh:<accountId>` and every other ephemeral-store key — is
unchanged, and the refresh-token cookie is neither set nor cleared. -/
theorem c3_refresh_success_issues_access_only
    (st : St) (tok : Jwt) (uid : Nat) (u : Account)
    (hsig : tok.secret = REFRESH_TOKEN_SECRET)
    (hexp : tok.expired = false)
    (hid : tok.idOpt = some uid)
    (hstored : redisGet st.redis ("refresh:" ++ toString uid) = some (.rhash tok))
    (huser : st.users.find? (fun x => x.id == uid) = some u) :
    (refreshToken st (some tok)).result = .ok 200 ∧
    (refreshToken st (some tok)).st = st ∧
    (refreshToken st (some tok)).accessCookie = some u.createAccessToken ∧
    (refreshToken st (some tok)).refreshCookie = none ∧
    (refreshToken st (some tok)).clearedRefreshCookie = false := by
  refine ⟨?_, ?_, ?_, ?_, ?_⟩ <;>
    simp [refreshToken, jwtVerify, hsig, hexp, hid, hstored, huser]

/-- C3 witness: alice's live session state; her refresh token is
exchanged for a fresh access token with the state untouched. -/
theorem c3_refresh_success_issues_access_only_witness :
    (refreshToken sessionSt (some aliceRefreshTok)).result = .ok 200 ∧
    (refreshToken sessionSt (some aliceRefreshTok)).st = sessionSt ∧
    (refreshToken sessionSt (some aliceRefreshTok)).accessCookie =
      some aliceAcct.createAccessToken ∧
    (refreshToken sessionSt (some aliceRefreshTok)).refreshCookie = none ∧
    (refreshToken sessionSt (some aliceRefreshTok)).clearedRefreshCookie = false :=
  c3_refresh_success_issues_access_only sessionSt aliceRefreshTok 0 aliceAcct
    rfl rfl rfl (by decide) (by decide)

/-! Claims C4 to C6: OTP verification of a staged registration. -/

/-- Staged registration for alice, no durable account yet. -/
def stagedSt : St :=
  { users := [],
    redis := [{ key := "register:a@x.com",
                val := .reg "alice" "a@x.com" "Abc123!" "123456", ttl := 300 }],
    emailJobs := [], nextId := 0 }

/-- Staged registration for alice while a durable account with her email
already exists (a second verification racing a first). -/
def stagedDupSt : St :=
  { users := [aliceAcct],
    redis := [{ key := "register:a@x.com",
                val := .reg "alice" "a@x.com" "Abc123!" "123456", ttl := 300 }],
    emailJobs := [], nextId := 1 }

/-- C4 counterexample: verifying alice's staged OTP while her account
already exists does not fail with the taxonomy's status-carrying
`Conflict` error (neither this endpoint's intended
`ApiError(400, "User already exists")` nor the 409 form `/register`
uses): the broken `ApiError` constructor throws a status-less
`TypeError` that the middleware renders as 500 `INTERNAL_ERROR`. -/
theorem c4_verifyOtp_duplicate_account_counterexample :
    (verifyOtp stagedDupSt 7 "a@x.com" "123456").result ≠
      .err (specApiError 400 "User already exists") ∧
    (verifyOtp stagedDupSt 7 "a@x.com" "123456").result ≠
      .err (specApiError 409 "User already exists") ∧
    (verifyOtp stagedDupSt 7 "a@x.com" "123456").result =
      .err (apiError 400 "User already exists") ∧
    (apiError 400 "User already exists").statusOpt = none ∧
    (errorMiddleware (apiError 400 "User already exists")).status = 500 ∧
    (errorMiddleware (apiError 400 "User already exists")).code = "INTERNAL_ERROR" := by
  refine ⟨?_, ?_, rfl, rfl, rfl, rfl⟩ <;> decide

/-- C4, amended: for every registration verification where the staged
entry is present, the submitted OTP matches it, and a durable account
with the submitted email already exists, the operation deletes the
staged entry at `register:<email>` and fails — creating no account,
issuing no tokens, and enqueueing no email — but the duplicate-account
rejection at `new ApiError(400, "User already exists")` actually throws
the status-less `TypeError` of the broken `ApiError` constructor, which
surfaces as a generic 500 `INTERNAL_ERROR`, not as any status-carrying
`Conflict` error of the taxonomy. -/
theorem c4_verifyOtp_duplicate_account_generic_500
    (st : St) (now : Nat) (email otp su se sp : String) (u : Account)
    (hemail : email ≠ "") (hotp : otp ≠ "")
    (hstaged : redisGet st.redis ("register:" ++ email) = some (.reg su se sp otp))
    (hdup : st.users.find? (fun x => x.email == email) = some u) :
    (verifyOtp st now email otp).result = .err (apiError 400 "User already exists") ∧
    (∀ s m, (verifyOtp st now email otp).result ≠ .err (specApiError s m)) ∧
    (errorMiddleware (apiError 400 "User already exists")).status = 500 ∧
    (errorMiddleware (apiError 400 "User already exists")).code = "INTERNAL_ERROR" ∧
    redisGet (verifyOtp st now email otp).st.redis ("register:" ++ email) = none ∧
    (verifyOtp st now email otp).st.users = st.users ∧
    (verifyOtp st now email otp).accessCookie = none ∧
    (verifyOtp st now email otp).refreshCookie = none ∧
    (verifyOtp st now email otp).st.emailJobs = st.emailJobs := by
  have hres : (verifyOtp st now email otp).result =
      .err (apiError 400 "User already exists") := by
    simp [verifyOtp, hemail, hotp, hstaged, hdup, errOutcome]
  refine ⟨hres, ?_, rfl, rfl, ?_, ?_, ?_, ?_, ?_⟩
  · intro s m heq
    rw [hres] at heq
    injection heq with h2
    exact apiError_ne_spec _ _ _ _ h2
  all_goals
    simp [verifyOtp, hemail, hotp, hstaged, hdup, errOutcome, redisGet_del_self]

/-- C4 witness: verifying alice's staged OTP while her account already
exists deletes the staged entry and fails with the generic error. -/
theorem c4_verifyOtp_duplicate_account_generic_500_witness :
    (verifyOtp stagedDupSt 7 "a@x.com" "123456").result =
      .err (apiError 400 "User already exists") ∧
    (∀ s m, (verifyOtp stagedDupSt 7 "a@x.com" "123456").result ≠
      .err (specApiError s m)) ∧
    (errorMiddleware (apiError 400 "User already exists")).status = 500 ∧
    (errorMiddleware (apiError 400 "User already exists")).code = "INTERNAL_ERROR" ∧
    redisGet (verifyOtp stagedDupSt 7 "a@x.com" "123456").st.redis
      ("register:" ++ "a@x.com") = none ∧
    (verifyOtp stagedDupSt 7 "a@x.com" "123456").st.users = stagedDupSt.users ∧
    (verifyOtp stagedDupSt 7 "a@x.com" "123456").accessCookie = none ∧
    (verifyOtp stagedDupSt 7 "a@x.com" "123456").refreshCookie = none ∧
    (verifyOtp stagedDupSt 7 "a@x.com" "123456").st.emailJobs = stagedDupSt.emailJobs :=
  c4_verifyOtp_duplicate_account_generic_500 stagedDupSt 7 "a@x.com" "123456"
    "alice" "a@x.com" "Abc123!" aliceAcct (by decide) (by decide) (by decide) (by decide)

/-- C5 counterexample: submitting the wrong code against alice's staged
registration does not fail with the taxonomy's status-carrying
`InvalidOtp` error: the mismatch path's `new ApiError(400, "Invalid OTP")`
throws the status-less `TypeError` of the broken constructor, surfacing
as 500 `INTERNAL_ERROR`. -/
theorem c5_verifyOtp_wrong_otp_counterexample :
    (verifyOtp stagedSt 7 "a@x.com" "999999").result ≠
      .err (specApiError 400 "Invalid OTP") ∧
    (verifyOtp stagedSt 7 "a@x.com" "999999").result =
      .err (apiError 400 "Invalid OTP") ∧
    (apiError 400 "Invalid OTP").statusOpt = none ∧
    (errorMiddleware (apiError 400 "Invalid OTP")).status = 500 ∧
    (errorMiddleware (apiError 400 "Invalid OTP")).code = "INTERNAL_ERROR" := by
  refine ⟨?_, rfl, rfl, rfl, rfl⟩
  decide

/-- C5, amended: for every registration verification submitting an OTP
different from the staged one, the operation fails and leaves the whole
state — in particular the staged entry — unchanged, and a subsequent
verification against the resulting state with the correct code (the key
still being present, i.e. before TTL expiry) succeeds with 201; but the
mismatch failure at `new ApiError(400, "Invalid OTP")` actually throws
the status-less `TypeError` of the broken `ApiError` constructor, which
surfaces as a generic 500 `INTERNAL_ERROR`, not as any status-carrying
`InvalidOtp` error of the taxonomy. -/
theorem c5_verifyOtp_wrong_otp_retains_staged_generic_500
    (st : St) (now : Nat) (email otp su se sp sotp : String)
    (hemail : email ≠ "") (hotp : otp ≠ "") (hsotp : sotp ≠ "")
    (hstaged : redisGet st.redis ("register:" ++ email) = some (.reg su se sp sotp))
    (hne : otp ≠ sotp)
    (hnodup : st.users.find? (fun x => x.email == email) = none) :
    (verifyOtp st now email otp).result = .err (apiError 400 "Invalid OTP") ∧
    (∀ s m, (verifyOtp st now email otp).result ≠ .err (specApiError s m)) ∧
    (errorMiddleware (apiError 400 "Invalid OTP")).status = 500 ∧
    (errorMiddleware (apiError 400 "Invalid OTP")).code = "INTERNAL_ERROR" ∧
    (verifyOtp st now email otp).st = st ∧
    redisGet (verifyOtp st now email otp).st.redis ("register:" ++ email) =
      some (.reg su se sp sotp) ∧
    (verifyOtp (verifyOtp st now email otp).st now email sotp).result = .ok 201 := by
  have hne' : sotp ≠ otp := Ne.symm hne
  have hstate : (verifyOtp st now email otp).st = st := by
    simp [verifyOtp, hemail, hotp, hstaged, hne', errOutcome]
  have hres : (verifyOtp st now email otp).result =
      .err (apiError 400 "Invalid OTP") := by
    simp [verifyOtp, hemail, hotp, hstaged, hne', errOutcome]
  refine ⟨hres, ?_, rfl, rfl, hstate, ?_, ?_⟩
  · intro s m heq
    rw [hres] at heq
    injection heq with h2
    exact apiError_ne_spec _ _ _ _ h2
  · rw [hstate]; exact hstaged
  · rw [hstate]
    simp [verifyOtp, hemail, hsotp, hstaged, hnodup]

/-- C5 witness: submitting the wrong code against alice's staged
registration, then the right one. -/
theorem c5_verifyOtp_wrong_otp_retains_staged_generic_500_witness :
    (verifyOtp stagedSt 7 "a@x.com" "999999").result =
      .err (apiError 400 "Invalid OTP") ∧
    (∀ s m, (verifyOtp stagedSt 7 "a@x.com" "999999").result ≠
      .err (specApiError s m)) ∧
    (errorMiddleware (apiError 400 "Invalid OTP")).status = 500 ∧
    (errorMiddleware (apiError 400 "Invalid OTP")).code = "INTERNAL_ERROR" ∧
    (verifyOtp stagedSt 7 "a@x.com" "999999").st = stagedSt ∧
    redisGet (verifyOtp stagedSt 7 "a@x.com" "999999").st.redis
      ("register:" ++ "a@x.com") = some (.reg "alice" "a@x.com" "Abc123!" "123456") ∧
    (verifyOtp (verifyOtp stagedSt 7 "a@x.com" "999999").st 7 "a@x.com" "123456").result =
      .ok 201 :=
  c5_verifyOtp_wrong_otp_retains_staged_generic_500 stagedSt 7 "a@x.com" "999999"
    "alice" "a@x.com" "Abc123!" "123456"
    (by decide) (by decide) (by decide) (by decide) (by decide) (by decide)

/-- C6: for every successful registration verification, the created
account is verified and stores the one-way hash of the staged raw
password, not the raw password: the stored field differs from the raw
password, `validatePassword` succeeds exactly on the correct raw
password and fails on every other string; and whenever the registration
staging itself succeeds, the staged payload it wrote holds the raw
password un-hashed. -/
theorem c6_verifyOtp_success_hashes_password
    (st : St) (now : Nat) (email otp su se sp : String)
    (hemail : email ≠ "") (hotp : otp ≠ "")
    (hstaged : redisGet st.redis ("register:" ++ email) = some (.reg su se sp otp))
    (hnodup : st.users.find? (fun x => x.email == email) = none) :
    ∃ a : Account,
      (verifyOtp st now email otp).result = .ok 201 ∧
      (verifyOtp st now email otp).st.users = st.users ++ [a] ∧
      a.isVerified = true ∧
      a.password = bcryptHash sp ∧
      a.password ≠ sp ∧
      a.validatePassword sp = true ∧
      (∀ q : String, q ≠ sp → a.validatePassword q = false) ∧
      (∀ (st2 : St) (un pw o2 : String),
        (registerUser st2 false un email pw o2).result = .ok 200 →
        redisGet (registerUser st2 false un email pw o2).st.redis ("register:" ++ email) =
          some (.reg un email pw o2)) := by
  refine ⟨{ id := st.nextId, username := su, email := se, password := bcryptHash sp,
            avatar := defaultAvatar, bio := "", isVerified := true, lastSeen := now,
            status := "online", friends := [] }, ?_, ?_, rfl, rfl, bcryptHash_ne_self sp,
          (bcryptCompare_hash_iff sp sp).mpr rfl, ?_, ?_⟩
  · simp [verifyOtp, hemail, hotp, hstaged, hnodup]
  · simp [verifyOtp, hemail, hotp, hstaged, hnodup]
  · intro q hq
    exact Bool.eq_false_iff.mpr (fun hc => hq ((bcryptCompare_hash_iff q sp).mp hc))
  · intro st2 un pw o2 hok
    unfold registerUser at hok ⊢
    by_cases hex : (st2.users.find? (fun u => u.username == un || u.email == email)).isSome
    · simp [hex, errOutcome, apiError] at hok
    · by_cases hrl : (redisGet st2.redis ("register:ratelimit:" ++ email)).isSome
      · simp [hex, hrl, errOutcome, apiError] at hok
      · simp [hex, hrl]
        rw [redisGet_set_ne _ _ _ _ _
          (append_ne_append_of_length_ne _ _ _ (by decide))]
        exact redisGet_set_self _ _ _ _

/-- C6 witness: verifying alice's staged registration creates her
verified account with a hashed password. -/
theorem c6_verifyOtp_success_hashes_password_witness :
    ∃ a : Account,
      (verifyOtp stagedSt 7 "a@x.com" "123456").result = .ok 201 ∧
      (verifyOtp stagedSt 7 "a@x.com" "123456").st.users = stagedSt.users ++ [a] ∧
      a.isVerified = true ∧
      a.password = bcryptHash "Abc123!" ∧
      a.password ≠ "Abc123!" ∧
      a.validatePassword "Abc123!" = true ∧
      (∀ q : String, q ≠ "Abc123!" → a.validatePassword q = false) ∧
      (∀ (st2 : St) (un pw o2 : String),
        (registerUser st2 false un "a@x.com" pw o2).result = .ok 200 →
        redisGet (registerUser st2 false un "a@x.com" pw o2).st.redis
          ("register:" ++ "a@x.com") = some (.reg un "a@x.com" pw o2)) :=
  c6_verifyOtp_success_hashes_password stagedSt 7 "a@x.com" "123456"
    "alice" "a@x.com" "Abc123!" (by decide) (by decide) (by decide) (by decide)

/-! Helper lemmas about `updateFirstUser`. -/

theorem updateFirstUser_eq (pre post : List Account) (u : Account)
    (p : Account → Bool) (f : Account → Account)
    (hpre : ∀ v ∈ pre, p v = false) (hu : p u = true) :
    updateFirstUser (pre ++ u :: post) p f = pre ++ f u :: post := by
  induction pre with
  | nil => simp [updateFirstUser, hu]
  | cons a l ih =>
    have ha : p a = false := hpre a (by simp)
    simp only [List.cons_append, updateFirstUser]
    rw [if_neg (by simp [ha])]
    simp only [List.append_eq]
    rw [ih (fun v hv => hpre v (by simp [hv]))]

theorem find?_updateFirstUser (users : List Account) (p : Account → Bool)
    (f : Account → Account) (u : Account)
    (hfind : users.find? p = some u) (hpf : ∀ x, p x = true → p (f x) = true) :
    (updateFirstUser users p f).find? p = some (f u) := by
  induction users with
  | nil => simp [List.find?] at hfind
  | cons a l ih =>
    cases hpa : p a with
    | true =>
      rw [List.find?_cons_of_pos _ hpa] at hfind
      injection hfind with heq
      subst heq
      unfold updateFirstUser
      rw [if_pos hpa]
      exact List.find?_cons_of_pos _ (hpf a hpa)
    | false =>
      rw [List.find?_cons_of_neg _ (by simp [hpa])] at hfind
      unfold updateFirstUser
      rw [if_neg (by simp [hpa])]
      rw [List.find?_cons_of_neg _ (by simp [hpa])]
      exact ih hfind

/-! Claim C7. -/

/-- C7 counterexample: a successful login leaves the account list — and
in particular the account's `status` ("offline") and `lastSeen` (5) —
entirely unchanged, refuting the part of the claim that says a
successful login updates the account's `status` and `lastSeen`
(`loginUser` performs no user-document write). -/
theorem c7_login_mutates_nothing_counterexample :
    (loginUser aliceSt "a@x.com" "Abc123!").result = .ok 200 ∧
    (loginUser aliceSt "a@x.com" "Abc123!").st.users = [aliceAcct] ∧
    aliceAcct.status = "offline" ∧
    aliceAcct.lastSeen = 5 := by
  refine ⟨?_, ?_, rfl, rfl⟩ <;> decide

/-- C7, amended: logout mutates exactly the target account's `status`
(to "offline") and `lastSeen` (to the logout time), leaving its other
fields and every other account unchanged, and deletes the refresh
record; a login — successful or not — leaves the account collection
entirely unchanged (in particular it does not update `status` or
`lastSeen`). -/
theorem c7_logout_mutates_status_lastSeen_login_mutates_nothing
    (st : St) (now uid : Nat) (pre post : List Account) (u : Account)
    (hsplit : st.users = pre ++ u :: post)
    (hpre : ∀ v ∈ pre, v.id ≠ uid)
    (hu : u.id = uid) :
    (logoutUser st now uid).st.users =
      pre ++ { u with status := "offline", lastSeen := now } :: post ∧
    (logoutUser st now uid).result = .ok 200 ∧
    (logoutUser st now uid).clearedAccessCookie = true ∧
    (logoutUser st now uid).clearedRefreshCookie = true ∧
    redisGet (logoutUser st now uid).st.redis ("refresh:" ++ toString uid) = none ∧
    (∀ email password, (loginUser st email password).st.users = st.users) := by
  refine ⟨?_, rfl, rfl, rfl, ?_, ?_⟩
  · simp only [logoutUser]
    rw [hsplit]
    exact updateFirstUser_eq pre post u _ _
      (fun v hv => by rw [beq_eq_false_iff_ne]; exact hpre v hv)
      (by rw [beq_iff_eq]; exact hu)
  · exact redisGet_del_self _ _
  · intro email password
    unfold loginUser
    split
    · rfl
    · split
      · rfl
      · split
        · rfl
        · rfl

/-- C7 witness: the amended theorem applied to alice logging out at time
9 from a one-account state. -/
theorem c7_logout_mutates_status_lastSeen_login_mutates_nothing_witness :
    (logoutUser aliceSt 9 0).st.users =
      [] ++ { aliceAcct with status := "offline", lastSeen := 9 } :: [] ∧
    (logoutUser aliceSt 9 0).result = .ok 200 ∧
    (logoutUser aliceSt 9 0).clearedAccessCookie = true ∧
    (logoutUser aliceSt 9 0).clearedRefreshCookie = true ∧
    redisGet (logoutUser aliceSt 9 0).st.redis ("refresh:" ++ toString 0) = none ∧
    (∀ email password, (loginUser aliceSt email password).st.users = aliceSt.users) :=
  c7_logout_mutates_status_lastSeen_login_mutates_nothing aliceSt 9 0 [] [] aliceAcct
    rfl (by simp) rfl

/-! Claim C8. -/

/-- C8 counterexample: a reset request for an unknown email against the
fresh state does not fail with the taxonomy's status-carrying `NotFound`
error: `new ApiError(404, "User not found")` throws the status-less
`TypeError` of the broken constructor, surfacing as 500
`INTERNAL_ERROR`, not 404. -/
theorem c8_forgotPassword_unknown_email_counterexample :
    (forgotPassword emptySt "b@x.com" "123456").result ≠
      .err (specApiError 404 "User not found") ∧
    (forgotPassword emptySt "b@x.com" "123456").result =
      .err (apiError 404 "User not found") ∧
    (apiError 404 "User not found").statusOpt = none ∧
    (errorMiddleware (apiError 404 "User not found")).status = 500 ∧
    (errorMiddleware (apiError 404 "User not found")).code = "INTERNAL_ERROR" := by
  refine ⟨?_, rfl, rfl, rfl, rfl⟩
  decide

/-- C8, amended: for every password-reset request whose email has no
account on record, the operation fails before the rate-limit check and
leaves the whole state unchanged: no reset ticket is created at
`reset:<email>`, no rate-limit marker is armed at
`reset:rateLimit:<email>`, and no email job is enqueued (the statement
holds for every state, in particular also when the rate-limit marker is
already armed, so the existence check precedes the rate-limit check);
but the rejection at `new ApiError(404, "User not found")` actually
throws the status-less `TypeError` of the broken `ApiError`
constructor, which surfaces as a generic 500 `INTERNAL_ERROR`, not as
the taxonomy's status-carrying `NotFound`. -/
theorem c8_forgotPassword_unknown_email_generic_500
    (st : St) (email otp : String)
    (hno : st.users.find? (fun u => u.email == email) = none) :
    (forgotPassword st email otp).result = .err (apiError 404 "User not found") ∧
    (∀ s m, (forgotPassword st email otp).result ≠ .err (specApiError s m)) ∧
    (errorMiddleware (apiError 404 "User not found")).status = 500 ∧
    (errorMiddleware (apiError 404 "User not found")).code = "INTERNAL_ERROR" ∧
    (forgotPassword st email otp).st = st := by
  have hres : (forgotPassword st email otp).result =
      .err (apiError 404 "User not found") := by
    simp [forgotPassword, hno, errOutcome]
  refine ⟨hres, ?_, rfl, rfl, ?_⟩
  · intro s m heq
    rw [hres] at heq
    injection heq with h2
    exact apiError_ne_spec _ _ _ _ h2
  · simp [forgotPassword, hno, errOutcome]

/-- C8 witness: a reset request for an unknown email against the fresh
state. -/
theorem c8_forgotPassword_unknown_email_generic_500_witness :
    (forgotPassword emptySt "b@x.com" "123456").result =
      .err (apiError 404 "User not found") ∧
    (∀ s m, (forgotPassword emptySt "b@x.com" "123456").result ≠
      .err (specApiError s m)) ∧
    (errorMiddleware (apiError 404 "User not found")).status = 500 ∧
    (errorMiddleware (apiError 404 "User not found")).code = "INTERNAL_ERROR" ∧
    (forgotPassword emptySt "b@x.com" "123456").st = emptySt :=
  c8_forgotPassword_unknown_email_generic_500 emptySt "b@x.com" "123456" rfl

/-! Claim C9. -/

/-- State with alice's account and a pending password-reset ticket. -/
def resetSt : St :=
  { users := [aliceAcct],
    redis := [{ key := "reset:a@x.com", val := .reset "654321", ttl := 300 }],
    emailJobs := [], nextId := 1 }

/-- C9: for every password-reset verification where the submitted OTP
equals the stored ticket's OTP, the operation updates the account's
password field to the hash of the new raw password, deletes both
`reset:<email>` and `reset:rateLimit:<email>`, returns 200, and issues
no tokens and sets and clears no cookies. -/
theorem c9_verifyForgotPasswordOtp_success
    (st : St) (email password otp : String) (u : Account)
    (hemail : email ≠ "") (hpw : password ≠ "") (hotp : otp ≠ "")
    (hticket : redisGet st.redis ("reset:" ++ email) = some (.reset otp))
    (huser : st.users.find? (fun x => x.email == email) = some u) :
    (verifyForgotPasswordOtp st email password otp).result = .ok 200 ∧
    (verifyForgotPasswordOtp st email password otp).st.users.find?
        (fun x => x.email == email) = some { u with password := bcryptHash password } ∧
    redisGet (verifyForgotPasswordOtp st email password otp).st.redis
      ("reset:" ++ email) = none ∧
    redisGet (verifyForgotPasswordOtp st email password otp).st.redis
      ("reset:rateLimit:" ++ email) = none ∧
    (verifyForgotPasswordOtp st email password otp).accessCookie = none ∧
    (verifyForgotPasswordOtp st email password otp).refreshCookie = none ∧
    (verifyForgotPasswordOtp st email password otp).clearedAccessCookie = false ∧
    (verifyForgotPasswordOtp st email password otp).clearedRefreshCookie = false := by
  refine ⟨?_, ?_, ?_, ?_, ?_, ?_, ?_, ?_⟩ <;>
    simp [verifyForgotPasswordOtp, hemail, hpw, hotp, hticket]
  · exact find?_updateFirstUser st.users _ _ u huser (fun x hx => hx)
  · rw [redisGet_del_ne _ _ _ (append_ne_append_of_length_ne _ _ _ (by decide))]
    exact redisGet_del_self _ _
  · exact redisGet_del_self _ _

/-- C9 witness: alice resets her password with the correct ticket OTP. -/
theorem c9_verifyForgotPasswordOtp_success_witness :
    (verifyForgotPasswordOtp resetSt "a@x.com" "Newpass1!" "654321").result = .ok 200 ∧
    (verifyForgotPasswordOtp resetSt "a@x.com" "Newpass1!" "654321").st.users.find?
        (fun x => x.email == "a@x.com") =
      some { aliceAcct with password := bcryptHash "Newpass1!" } ∧
    redisGet (verifyForgotPasswordOtp resetSt "a@x.com" "Newpass1!" "654321").st.redis
      ("reset:" ++ "a@x.com") = none ∧
    redisGet (verifyForgotPasswordOtp resetSt "a@x.com" "Newpass1!" "654321").st.redis
      ("reset:rateLimit:" ++ "a@x.com") = none ∧
    (verifyForgotPasswordOtp resetSt "a@x.com" "Newpass1!" "654321").accessCookie = none ∧
    (verifyForgotPasswordOtp resetSt "a@x.com" "Newpass1!" "654321").refreshCookie = none ∧
    (verifyForgotPasswordOtp resetSt "a@x.com" "Newpass1!" "654321").clearedAccessCookie
      = false ∧
    (verifyForgotPasswordOtp resetSt "a@x.com" "Newpass1!" "654321").clearedRefreshCookie
      = false :=
  c9_verifyForgotPasswordOtp_success resetSt "a@x.com" "Newpass1!" "654321" aliceAcct
    (by decide) (by decide) (by decide) (by decide) (by decide)

/-! Claim C10. -/

/-- C10 counterexample: on the state holding alice's account, a duplicate
`/register` does not reject with the taxonomy's status-carrying
`Conflict` error as the claim's contrast clause asserts:
`new ApiError(409, "User with email or username already exists")`
throws the status-less `TypeError` of the broken constructor, surfacing
as 500 `INTERNAL_ERROR`, not 409. -/
theorem c10_register_duplicate_conflict_counterexample :
    (registerUser aliceSt false "bob" "a@x.com" "Xyz789!" "333333").result ≠
      .err (specApiError 409 "User with email or username already exists") ∧
    (registerUser aliceSt false "bob" "a@x.com" "Xyz789!" "333333").result =
      .err (apiError 409 "User with email or username already exists") ∧
    (apiError 409 "User with email or username already exists").statusOpt = none ∧
    (errorMiddleware
      (apiError 409 "User with email or username already exists")).status = 500 ∧
    (errorMiddleware
      (apiError 409 "User with email or username already exists")).code =
      "INTERNAL_ERROR" := by
  refine ⟨?_, rfl, rfl, rfl, rfl⟩
  decide

/-- C10, amended: the resend-verification-OTP operation checks only the
rate-limit marker: for every state whose marker at
`register:ratelimit:<email>` is absent — even one that already holds a
durable account with that email — it succeeds with 200, overwrites
`register:<email>` with the freshly staged payload and OTP, and
enqueues an email job; on that same state the initial registration
staging instead rejects the duplicate first (at
`new ApiError(409, ...)`), though that rejection actually throws the
status-less `TypeError` of the broken `ApiError` constructor and
surfaces as a generic 500 `INTERNAL_ERROR` rather than as a
status-carrying `Conflict`. -/
theorem c10_resendOtp_skips_duplicate_check
    (st : St) (email username password otp un2 pw2 otp2 : String) (u : Account)
    (hmarker : redisGet st.redis ("register:ratelimit:" ++ email) = none)
    (hdup : st.users.find? (fun x => x.email == email) = some u) :
    (resendEmailVerificationOTP st email username password otp).result = .ok 200 ∧
    redisGet (resendEmailVerificationOTP st email username password otp).st.redis
      ("register:" ++ email) = some (.reg username email password otp) ∧
    (resendEmailVerificationOTP st email username password otp).st.emailJobs =
      st.emailJobs ++
        [{ jobName := "sendMail", email := email, subject := "OTP Verification",
           otp := otp }] ∧
    (registerUser st false un2 email pw2 otp2).result =
      .err (apiError 409 "User with email or username already exists") ∧
    (∀ s m, (registerUser st false un2 email pw2 otp2).result ≠
      .err (specApiError s m)) ∧
    (errorMiddleware
      (apiError 409 "User with email or username already exists")).status = 500 ∧
    (errorMiddleware
      (apiError 409 "User with email or username already exists")).code =
      "INTERNAL_ERROR" := by
  have hmem := List.mem_of_find?_eq_some hdup
  have hpu := List.find?_some hdup
  have hex : (st.users.find? (fun x => x.username == un2 || x.email == email)).isSome := by
    rw [List.find?_isSome]
    exact ⟨u, hmem, by simp_all⟩
  have hreg : (registerUser st false un2 email pw2 otp2).result =
      .err (apiError 409 "User with email or username already exists") := by
    simp [registerUser, hex, errOutcome]
  refine ⟨?_, ?_, ?_, hreg, ?_, rfl, rfl⟩
  · simp [resendEmailVerificationOTP, hmarker]
  · simp [resendEmailVerificationOTP, hmarker]
    rw [redisGet_set_ne _ _ _ _ _ (append_ne_append_of_length_ne _ _ _ (by decide))]
    exact redisGet_set_self _ _ _ _
  · simp [resendEmailVerificationOTP, hmarker]
  · intro s m heq
    rw [hreg] at heq
    injection heq with h2
    exact apiError_ne_spec _ _ _ _ h2

/-- C10 witness: with alice's account on record and no cooldown marker,
the resend endpoint restages `register:a@x.com` while `/register`
itself rejects the duplicate (surfacing as the generic error). -/
theorem c10_resendOtp_skips_duplicate_check_witness :
    (resendEmailVerificationOTP aliceSt "a@x.com" "alice" "Abc123!" "222222").result
      = .ok 200 ∧
    redisGet (resendEmailVerificationOTP aliceSt "a@x.com" "alice" "Abc123!"
        "222222").st.redis ("register:" ++ "a@x.com")
      = some (.reg "alice" "a@x.com" "Abc123!" "222222") ∧
    (resendEmailVerificationOTP aliceSt "a@x.com" "alice" "Abc123!" "222222").st.emailJobs
      = aliceSt.emailJobs ++
        [{ jobName := "sendMail", email := "a@x.com", subject := "OTP Verification",
           otp := "222222" }] ∧
    (registerUser aliceSt false "bob" "a@x.com" "Xyz789!" "333333").result =
      .err (apiError 409 "User with email or username already exists") ∧
    (∀ s m, (registerUser aliceSt false "bob" "a@x.com" "Xyz789!" "333333").result ≠
      .err (specApiError s m)) ∧
    (errorMiddleware
      (apiError 409 "User with email or username already exists")).status = 500 ∧
    (errorMiddleware
      (apiError 409 "User with email or username already exists")).code =
      "INTERNAL_ERROR" :=
  c10_resendOtp_skips_duplicate_check aliceSt "a@x.com" "alice" "Abc123!" "222222"
    "bob" "Xyz789!" "333333" aliceAcct rfl (by decide)

end BaatCheet
